import Mathlib

/-!
Verification of the cross-run profiling aggregation and reporting logic of
`profiler.py` (a command-line tool that profiles repeated runs of a
capture-the-flag game and reports the top CPU bottlenecks plus a game
summary).

Times are modelled as rationals (the Python code manipulates them only by
addition, comparison and division), call counts and move counts as naturals,
scores as integers.  Python dictionaries (`defaultdict`) are modelled as
insertion-ordered association lists; the filesystem and the external game
engine are abstracted as function parameters.
-/

/-- The per-function aggregate record kept in `all_stats` (profiler.py
line 163): cumulative time, exclusive (tot) time, and call count, summed
across runs. -/
structure AggEntry where
  cumtime : ℚ
  tottime : ℚ
  calls : ℕ
deriving DecidableEq, Repr

/-- One per-run profiling sample for one function, as extracted from
`pstats.Stats` in the aggregation loop (profiler.py lines 176-180):
function name (directory-stripped), call count `nc`, exclusive time `tt`,
cumulative time `ct`. -/
structure Sample where
  name : String
  calls : ℕ
  tottime : ℚ
  cumtime : ℚ
deriving DecidableEq, Repr

/-- The zero aggregate record, as created by the defaultdict default
`lambda: {'cumtime': 0, 'tottime': 0, 'calls': 0}` (profiler.py line 163). -/
def zeroEntry : AggEntry := ⟨0, 0, 0⟩

/-- Add one run sample into an aggregate record, mirroring the three `+=`
statements of profiler.py lines 178-180. -/
def addSample (e : AggEntry) (s : Sample) : AggEntry :=
  ⟨e.cumtime + s.cumtime, e.tottime + s.tottime, e.calls + s.calls⟩

/-- The aggregate mapping: an insertion-ordered association list from
function name to aggregate record, modelling the Python dict `all_stats`. -/
abbrev AggMap := List (String × AggEntry)

/-- Lookup in the aggregate mapping with the defaultdict semantics: a
missing key reads as the all-zero record. -/
def lookupAgg (l : AggMap) (n : String) : AggEntry :=
  match l with
  | [] => zeroEntry
  | (m, e) :: rest => if m = n then e else lookupAgg rest n

/-- Fold one sample into the aggregate mapping: update the existing entry
for its name in place, or append a fresh entry (starting from the all-zero
default) when the name is seen for the first time.  This is the defaultdict
update `all_stats[func_name]['cumtime'] += ct` etc. of profiler.py
lines 176-180, preserving dict insertion order. -/
def accumSample (l : AggMap) (s : Sample) : AggMap :=
  match l with
  | [] => [(s.name, addSample zeroEntry s)]
  | (m, e) :: rest =>
    if m = s.name then (m, addSample e s) :: rest
    else (m, e) :: accumSample rest s

/-- Fold a whole list of samples (one run's sample set, or several runs
concatenated) into the aggregate mapping. -/
def accumRun (l : AggMap) (run : List Sample) : AggMap :=
  run.foldl accumSample l

/-- The comparison used by `sorted(..., key=lambda x: x[1]['cumtime'],
reverse=True)` (profiler.py line 193): x comes no later than y exactly when
x's cumulative time is at least y's; a stable sort with this relation is
Python's stable descending sort. -/
def cumLe (x y : String × AggEntry) : Bool :=
  decide (y.2.cumtime ≤ x.2.cumtime)

/-- The aggregate items sorted by cumulative time, descending and stable
(profiler.py line 193). -/
def sorted_funcs (l : AggMap) : List (String × AggEntry) :=
  l.mergeSort cumLe

/-- The significance filter of profiler.py lines 196-197:
`stats['cumtime'] > 0.01 and stats['calls'] > 0`.  The literal 0.01 is
written as the rational 1/100 (the same number). -/
def isBottleneck (x : String × AggEntry) : Bool :=
  decide ((1/100 : ℚ) < x.2.cumtime) && decide (0 < x.2.calls)

/-- The filtered, sorted bottleneck list (profiler.py lines 193-197). -/
def bottlenecks (l : AggMap) : List (String × AggEntry) :=
  (sorted_funcs l).filter isBottleneck

/-- The entries actually displayed: the first 4 bottlenecks
(`bottlenecks[:4]`, profiler.py line 200). -/
def displayed (l : AggMap) : List (String × AggEntry) :=
  (bottlenecks l).take 4

/-- The values shown by `format_bottleneck` (profiler.py lines 102-108):
the name, the cumulative time in seconds, the call count, and the per-call
time in milliseconds, which is `(cumtime / calls) * 1000` when `calls > 0`
and `0` otherwise (the zero-denominator guard of lines 104-107).  String
padding and decimal rounding are display-only and not modelled. -/
def format_bottleneck (name : String) (cumtime : ℚ) (calls : ℕ) :
    String × ℚ × ℕ × ℚ :=
  let percall : ℚ := if calls > 0 then (cumtime / calls) * 1000 else 0
  (name, cumtime, calls, percall)

/-- The average-moves computation of profiler.py line 212:
`total_moves // args.num_games if args.num_games > 0 else 0`; the Python
`//` on integers is floor division, `Int.fdiv`. -/
def avg_moves (total_moves : ℕ) (num_games : ℤ) : ℤ :=
  if num_games > 0 then Int.fdiv total_moves num_games else 0

/-- The average-score computation of profiler.py line 214:
`total_score / args.num_games if args.num_games > 0 else 0` (true division;
the value 0 is what the `+.1f` format then renders as the string +0.0). -/
def avg_score (total_score : ℤ) (num_games : ℤ) : ℚ :=
  if num_games > 0 then (total_score : ℚ) / (num_games : ℚ) else 0

/-- Componentwise sum of two aggregate records. -/
def addEntry (a b : AggEntry) : AggEntry :=
  ⟨a.cumtime + b.cumtime, a.tottime + b.tottime, a.calls + b.calls⟩

/-- The total contribution of one run's samples to the aggregate record of
the function named n: the sums of the fields of the samples carrying that
name. -/
def contrib (n : String) (run : List Sample) : AggEntry :=
  ⟨((run.filter fun s => decide (s.name = n)).map Sample.cumtime).sum,
   ((run.filter fun s => decide (s.name = n)).map Sample.tottime).sum,
   ((run.filter fun s => decide (s.name = n)).map Sample.calls).sum⟩

/-- Opaque handle to a layout object returned by `get_layout`; its contents
are never inspected by the profiler. -/
abbrev Layout := ℕ

/-- Opaque handle to a loaded agent; the profiler only checks agents
against the null (None) load-failure marker, modelled by `Option`. -/
abbrev Agent := ℕ

/-- The outcome of one call to `run_profiled_game`: the profiling samples
collected, the final score and the move count. -/
structure GameOutcome where
  samples : List Sample
  score : ℤ
  moves : ℕ
deriving DecidableEq, Repr

/-- The turn-order construction of profiler.py line 82:
`[r for pair in zip(red_agents, blue_agents) for r in pair]`. -/
def interleave {α : Type} (red_agents blue_agents : List α) : List α :=
  (red_agents.zip blue_agents).flatMap fun p => [p.1, p.2]

/-- The run driver `run_profiled_game` (profiler.py lines 46-99).  The
external engine is abstracted: `layout_obj` is what `get_layout` returned
(None modelled as `none`), the two agent lists are what `load_agents`
returned (a failed agent slot is `none`), and `play` stands for building
the game via `rules.new_game` and running it, yielding the samples the
profiler collects during the game plus the final score and move count.
A missing layout or any null agent aborts before the game is built,
returning score 0 and move count 0 with no game samples. -/
def run_profiled_game (layout_obj : Option Layout)
    (red_agents blue_agents : List (Option Agent))
    (play : Layout → List Agent → GameOutcome) : GameOutcome :=
  match layout_obj with
  | none => ⟨[], 0, 0⟩
  | some lay =>
    if none ∈ red_agents ∨ none ∈ blue_agents then ⟨[], 0, 0⟩
    else
      play lay (interleave red_agents.reduceOption blue_agents.reduceOption)

/-- Running totals of score and moves across the session
(`total_moves += moves; total_score += score`, profiler.py
lines 182-183). -/
def sessionTotals (results : List GameOutcome) : ℤ × ℕ :=
  results.foldl (fun acc g => (acc.1 + g.score, acc.2 + g.moves)) (0, 0)

/-- Python `team_arg.endswith('.py')` (profiler.py line 133), modelled over
the character list: the last three characters are ".py".  (String.endsWith
has the same meaning but is not kernel-reducible, so the character-list
form is used.) -/
def endsWithPy (s : String) : Bool :=
  decide (s.data.reverse.take 3 = ['y', 'p', '.'])

/-- The extension step of profiler.py lines 132-137: use the argument as
given when it already ends in .py, otherwise append .py. -/
def withPyExtension (team_arg : String) : String :=
  if endsWithPy team_arg then team_arg else team_arg ++ ".py"

/-- pathlib `Path.name` (profiler.py line 144): the final path component,
the suffix after the last slash. -/
def pathName (p : String) : String :=
  String.mk ((p.data.reverse.takeWhile (fun c => decide (c ≠ '/'))).reverse)

/-- The team-path resolution of profiler.py lines 130-149.  The filesystem
is abstracted: `fsExists` stands for `Path.exists`, `resolvePath` for
`Path.resolve` (absolute-path normalization), and `script_dir` for the
directory containing the script; the fixed agents directory is
`script_dir/src/contest`.  When neither the given path nor the
agents-directory path exists, the agents-directory path is returned anyway
(the final fallback of line 149, identical to the line-146 branch). -/
def resolve_team_path (fsExists : String → Bool)
    (resolvePath : String → String) (script_dir team_arg : String) : String :=
  let team_path := withPyExtension team_arg
  if fsExists team_path then resolvePath team_path
  else
    let contest_path := script_dir ++ "/src/contest/" ++ pathName team_path
    if fsExists contest_path then resolvePath contest_path
    else resolvePath contest_path

/-- The number of iterations of the main loop
`for game_num in range(args.num_games)` (profiler.py line 167): the length
of `range(n)`, which is empty for a non-positive n.  Each iteration prints
exactly one progress line. -/
def progressLines (num_games : ℤ) : ℕ := num_games.toNat

/-- The outcomes of the games the main loop actually runs: one per loop
iteration. -/
def sessionResults (num_games : ℤ) (runs : ℕ → GameOutcome) :
    List GameOutcome :=
  (List.range num_games.toNat).map runs

/-- The summary block of profiler.py lines 210-214: total score, total
moves, average moves and average score (the zero-games cases of the two
averages are the inline conditionals of lines 212 and 214). -/
def summaryOf (num_games : ℤ) (results : List GameOutcome) :
    ℤ × ℕ × ℤ × ℚ :=
  let t := sessionTotals results
  (t.1, t.2, avg_moves t.2 num_games, avg_score t.1 num_games)

/-- Claim C1: the bottleneck list contains exactly the aggregate entries
with cumulative time strictly greater than 0.01 and call count strictly
greater than 0; an entry with cumulative time exactly 0.01 is excluded, and
an entry with zero calls is excluded regardless of its cumulative time. -/
theorem C1_bottleneck_filter (l : AggMap) (n : String) (e : AggEntry) :
    ((n, e) ∈ bottlenecks l ↔
      (n, e) ∈ l ∧ (1/100 : ℚ) < e.cumtime ∧ 0 < e.calls) ∧
    (e.cumtime = 1/100 → (n, e) ∉ bottlenecks l) ∧
    (e.calls = 0 → (n, e) ∉ bottlenecks l) := by
  have hmem : (n, e) ∈ bottlenecks l ↔
      (n, e) ∈ l ∧ (1/100 : ℚ) < e.cumtime ∧ 0 < e.calls := by
    unfold bottlenecks sorted_funcs
    rw [List.mem_filter, (List.mergeSort_perm l cumLe).mem_iff]
    unfold isBottleneck
    simp [and_assoc]
  refine ⟨hmem, ?_, ?_⟩
  · intro hcum hin
    rcases hmem.mp hin with ⟨-, hlt, -⟩
    rw [hcum] at hlt
    exact lt_irrefl _ hlt
  · intro hc hin
    rcases hmem.mp hin with ⟨-, -, hpos⟩
    rw [hc] at hpos
    exact lt_irrefl 0 hpos

/-- Witness for C1 at a concrete aggregate: an entry with cumulative time
exactly 0.01 and one with zero calls are excluded, one above the threshold
with positive calls is included. -/
theorem C1_bottleneck_filter_witness :
    (("big", (⟨2, 1, 5⟩ : AggEntry)) ∈
        bottlenecks [("edge", ⟨1/100, 0, 3⟩), ("big", ⟨2, 1, 5⟩), ("zc", ⟨5, 5, 0⟩)]) ∧
    (("edge", (⟨1/100, 0, 3⟩ : AggEntry)) ∉
        bottlenecks [("edge", ⟨1/100, 0, 3⟩), ("big", ⟨2, 1, 5⟩), ("zc", ⟨5, 5, 0⟩)]) ∧
    (("zc", (⟨5, 5, 0⟩ : AggEntry)) ∉
        bottlenecks [("edge", ⟨1/100, 0, 3⟩), ("big", ⟨2, 1, 5⟩), ("zc", ⟨5, 5, 0⟩)]) := by
  refine ⟨?_, ?_, ?_⟩
  · exact (C1_bottleneck_filter _ "big" ⟨2, 1, 5⟩).1.mpr
      (by refine ⟨by simp, by norm_num, by norm_num⟩)
  · exact (C1_bottleneck_filter _ "edge" ⟨1/100, 0, 3⟩).2.1 rfl
  · exact (C1_bottleneck_filter _ "zc" ⟨5, 5, 0⟩).2.2 rfl

/-- The comparison `cumLe` is transitive (needed for sortedness of the
merge sort output). -/
lemma cumLe_trans (a b c : String × AggEntry) :
    cumLe a b = true → cumLe b c = true → cumLe a c = true := by
  unfold cumLe
  intro h1 h2
  rw [decide_eq_true_iff] at h1 h2 ⊢
  exact le_trans h2 h1

/-- The comparison `cumLe` is total. -/
lemma cumLe_total (a b : String × AggEntry) :
    (cumLe a b || cumLe b a) = true := by
  unfold cumLe
  rcases le_total (a.2.cumtime) (b.2.cumtime) with h | h
  · simp [h]
  · simp [h]

/-- The sorted aggregate items are pairwise descending in cumulative
time. -/
lemma sorted_funcs_sorted (l : AggMap) :
    List.Sorted (fun x y : String × AggEntry => y.2.cumtime ≤ x.2.cumtime)
      (sorted_funcs l) := by
  have h := List.sorted_mergeSort cumLe_trans cumLe_total l
  refine h.imp ?_
  intro a b hab
  rw [cumLe, decide_eq_true_iff] at hab
  exact hab

/-- Claim C2: the displayed bottleneck entries are sorted by cumulative
time in descending order and at most 4 are shown; on the example aggregate
a (cum 1/2, 10 calls), b (cum 2, 5 calls), c (cum 1/50, 1 call) the
displayed order is b, a, c with all three included (1/2 = 0.5 and
1/50 = 0.02 written as exact rationals). -/
theorem C2_display_order_and_limit (l : AggMap) :
    List.Sorted (fun x y : String × AggEntry => y.2.cumtime ≤ x.2.cumtime)
      (displayed l) ∧
    (displayed l).length ≤ 4 ∧
    displayed [("a", ⟨1/2, 0, 10⟩), ("b", ⟨2, 0, 5⟩), ("c", ⟨1/50, 0, 1⟩)] =
      [("b", ⟨2, 0, 5⟩), ("a", ⟨1/2, 0, 10⟩), ("c", ⟨1/50, 0, 1⟩)] := by
  refine ⟨?_, ?_, ?_⟩
  · have hsub : (displayed l).Sublist (sorted_funcs l) := by
      unfold displayed bottlenecks
      exact ((bottlenecks l).take_sublist 4).trans
        ((sorted_funcs l).filter_sublist)
    exact List.Pairwise.sublist hsub (sorted_funcs_sorted l)
  · unfold displayed
    exact List.length_take_le 4 (bottlenecks l)
  · norm_num [displayed, bottlenecks, sorted_funcs, List.mergeSort,
      isBottleneck, cumLe, List.filter, List.take]

/-- Claim C4: the per-call figure of `format_bottleneck` is
`(cumtime / calls) * 1000` whenever `calls > 0`, and 0 when `calls = 0`:
the zero-calls case takes the guard branch and performs no division. -/
theorem C4_format_bottleneck_no_div_by_zero (name : String) (c : ℚ) (n : ℕ) :
    (0 < n → (format_bottleneck name c n).2.2.2 = (c / n) * 1000) ∧
    (n = 0 → (format_bottleneck name c n).2.2.2 = 0) := by
  constructor
  · intro h
    simp [format_bottleneck, h]
  · intro h
    subst h
    simp [format_bottleneck]

/-- Witness for C4 at concrete inputs: 3 seconds over 2 calls gives 1500 ms
per call, and zero calls gives a per-call figure of 0. -/
theorem C4_format_bottleneck_witness :
    (format_bottleneck "foo" 3 2).2.2.2 = (3 / 2) * 1000 ∧
    (format_bottleneck "foo" 3 0).2.2.2 = 0 :=
  ⟨(C4_format_bottleneck_no_div_by_zero "foo" 3 2).1 (by norm_num),
   (C4_format_bottleneck_no_div_by_zero "foo" 3 0).2 rfl⟩

/-- Claim C5: average moves per game is integer floor division of
total moves by the number of games and average score is true division;
when the number of games is 0 both are special-cased to 0 (the value the
signed one-decimal format renders as +0.0) with no division performed;
10 total moves over 4 games gives 2 average moves. -/
theorem C5_summary_averages (tm : ℕ) (ts : ℤ) (n : ℤ) :
    (n = 0 → avg_moves tm n = 0 ∧ avg_score ts n = 0) ∧
    (0 < n → avg_moves tm n = Int.fdiv tm n ∧
      avg_score ts n = (ts : ℚ) / (n : ℚ)) ∧
    avg_moves 10 4 = 2 := by
  refine ⟨?_, ?_, ?_⟩
  · intro h
    subst h
    simp [avg_moves, avg_score]
  · intro h
    simp [avg_moves, avg_score, h]
  · norm_num [avg_moves, Int.fdiv]

/-- Witness for C5 at concrete inputs: zero games yields zero averages,
and 10 moves over 4 games averages to 2. -/
theorem C5_summary_averages_witness :
    avg_moves 10 0 = 0 ∧ avg_score 7 0 = 0 ∧ avg_moves 10 4 = 2 :=
  ⟨((C5_summary_averages 10 7 0).1 rfl).1,
   ((C5_summary_averages 10 7 0).1 rfl).2,
   (C5_summary_averages 10 7 4).2.2⟩

/-- Folding one sample into the mapping changes exactly the record of that
sample's name, by `addSample`, and leaves every other name unchanged. -/
lemma lookup_accumSample (l : AggMap) (s : Sample) (n : String) :
    lookupAgg (accumSample l s) n =
      if s.name = n then addSample (lookupAgg l n) s else lookupAgg l n := by
  induction l with
  | nil =>
    by_cases h : s.name = n <;> simp [accumSample, lookupAgg, h]
  | cons hd tl ih =>
    obtain ⟨m, e⟩ := hd
    by_cases h1 : m = s.name
    · subst h1
      by_cases h2 : s.name = n <;> simp [accumSample, lookupAgg, h2]
    · by_cases h2 : m = n
      · have hs : ¬ s.name = n := by
          rw [← h2]
          exact fun hh => h1 hh.symm
        have hns : ¬ n = s.name := fun hh => hs hh.symm
        simp [accumSample, lookupAgg, h1, h2, hs, hns]
      · simp [accumSample, lookupAgg, h1, h2, ih]

/-- Folding a run into the mapping adds, at every name, exactly that run's
contribution for the name. -/
lemma lookup_accumRun (run : List Sample) (l : AggMap) (n : String) :
    lookupAgg (accumRun l run) n = addEntry (lookupAgg l n) (contrib n run) := by
  induction run generalizing l with
  | nil =>
    cases h : lookupAgg l n
    simp [accumRun, contrib, addEntry, h]
  | cons s rest ih =>
    have hstep : accumRun l (s :: rest) = accumRun (accumSample l s) rest := rfl
    rw [hstep, ih, lookup_accumSample]
    by_cases h : s.name = n
    · simp [contrib, addEntry, addSample, h, add_assoc]
    · simp [contrib, addEntry, h]

/-- Permuting a run's samples does not change any name's contribution. -/
lemma contrib_perm (n : String) {run1 run2 : List Sample}
    (h : run1.Perm run2) : contrib n run1 = contrib n run2 := by
  unfold contrib
  have hf := h.filter (fun s => decide (s.name = n))
  rw [(hf.map Sample.cumtime).sum_eq, (hf.map Sample.tottime).sum_eq,
    (hf.map Sample.calls).sum_eq]

/-- A run with no sample named n contributes the zero record at n. -/
lemma contrib_of_absent (n : String) (run : List Sample)
    (h : ∀ s ∈ run, s.name ≠ n) : contrib n run = zeroEntry := by
  have hf : run.filter (fun s => decide (s.name = n)) = [] := by
    rw [List.filter_eq_nil_iff]
    intro s hs
    simpa using h s hs
  simp [contrib, hf, zeroEntry]

/-- Adding the zero record is the identity. -/
lemma addEntry_zero (e : AggEntry) : addEntry e zeroEntry = e := by
  cases e
  simp [addEntry, zeroEntry]

/-- Claim C3: aggregation is order-independent: folding the same multiset
of samples in any order gives every function name identical cumulative,
exclusive and call-count totals; a name absent from a run is unchanged by
folding that run (missing observations contribute zero); and before any
observation a name reads as the all-zero record. -/
theorem C3_aggregation_order_independent (l : AggMap)
    (run1 run2 : List Sample) (n : String) :
    (run1.Perm run2 →
      lookupAgg (accumRun l run1) n = lookupAgg (accumRun l run2) n) ∧
    ((∀ s ∈ run1, s.name ≠ n) → lookupAgg (accumRun l run1) n = lookupAgg l n) ∧
    lookupAgg [] n = zeroEntry := by
  refine ⟨?_, ?_, rfl⟩
  · intro h
    rw [lookup_accumRun, lookup_accumRun, contrib_perm n h]
  · intro h
    rw [lookup_accumRun, contrib_of_absent n run1 h, addEntry_zero]

/-- Witness for C3 at concrete inputs: swapping two samples leaves the
totals of the shared name unchanged, and a run naming only f leaves g
untouched. -/
theorem C3_aggregation_order_independent_witness :
    (lookupAgg (accumRun [] [⟨"f", 2, 1, 3⟩, ⟨"g", 1, 4, 5⟩]) "f" =
      lookupAgg (accumRun [] [⟨"g", 1, 4, 5⟩, ⟨"f", 2, 1, 3⟩]) "f") ∧
    (lookupAgg (accumRun [("g", (⟨7, 7, 7⟩ : AggEntry))] [⟨"f", 2, 1, 3⟩]) "g" =
      lookupAgg [("g", (⟨7, 7, 7⟩ : AggEntry))] "g") := by
  constructor
  · exact (C3_aggregation_order_independent [] _ _ "f").1
      (List.Perm.swap (⟨"g", 1, 4, 5⟩ : Sample) (⟨"f", 2, 1, 3⟩ : Sample) [])
  · exact (C3_aggregation_order_independent [("g", (⟨7, 7, 7⟩ : AggEntry))] _ [] "g").2.1
      (by intro s hs; simp at hs; subst hs; decide)

/-- Claim C6: a missing layout, or a null entry in either loaded agent
list, makes `run_profiled_game` return score 0 and move count 0 with an
empty sample set instead of raising, and such an aborted run enters the
session totals like any other run (adding nothing) while still counting
as one played game. -/
theorem C6_setup_failure_degrades (red blue : List (Option Agent))
    (play : Layout → List Agent → GameOutcome) :
    (run_profiled_game none red blue play = ⟨[], 0, 0⟩) ∧
    (∀ lay : Layout, none ∈ red ∨ none ∈ blue →
      run_profiled_game (some lay) red blue play = ⟨[], 0, 0⟩) ∧
    (∀ results : List GameOutcome,
      sessionTotals (results ++ [(⟨[], 0, 0⟩ : GameOutcome)]) = sessionTotals results ∧
      (results ++ [(⟨[], 0, 0⟩ : GameOutcome)]).length = results.length + 1) := by
  refine ⟨rfl, ?_, ?_⟩
  · intro lay h
    simp [run_profiled_game, h]
  · intro results
    constructor
    · simp [sessionTotals, List.foldl_append]
    · simp

/-- Witness for C6: a failed blue agent load and a missing layout both
yield the zero outcome at concrete inputs. -/
theorem C6_setup_failure_degrades_witness :
    run_profiled_game (some 0) [some 1, some 2] [some 3, none]
      (fun _ _ => (⟨[], 99, 88⟩ : GameOutcome)) = ⟨[], 0, 0⟩ ∧
    run_profiled_game none [some 1] [some 3]
      (fun _ _ => (⟨[], 99, 88⟩ : GameOutcome)) = ⟨[], 0, 0⟩ := by
  constructor
  · exact (C6_setup_failure_degrades [some 1, some 2] [some 3, none]
      (fun _ _ => (⟨[], 99, 88⟩ : GameOutcome))).2.1 0 (Or.inr (by simp))
  · exact (C6_setup_failure_degrades [some 1] [some 3]
      (fun _ _ => (⟨[], 99, 88⟩ : GameOutcome))).1

/-- Unfolding lemma: interleaving two nonempty lists starts with the two
heads. -/
lemma interleave_cons {α : Type} (r b : α) (rs bs : List α) :
    interleave (r :: rs) (b :: bs) = r :: b :: interleave rs bs := rfl

/-- Claim C7: the turn-order list alternates starting with the red side:
position 2i holds the i-th red agent and position 2i+1 the i-th blue
agent, for every index i available on both sides. -/
theorem C7_interleave_alternates {α : Type} (red blue : List α) (i : ℕ)
    (h1 : i < red.length) (h2 : i < blue.length) :
    (interleave red blue)[2 * i]? = red[i]? ∧
    (interleave red blue)[2 * i + 1]? = blue[i]? := by
  induction red generalizing blue i with
  | nil => simp at h1
  | cons r rs ih =>
    cases blue with
    | nil => simp at h2
    | cons b bs =>
      cases i with
      | zero => simp [interleave_cons]
      | succ j =>
        have e1 : 2 * (j + 1) = 2 * j + 1 + 1 := by ring
        rw [interleave_cons, e1]
        simp only [List.getElem?_cons_succ]
        exact ih bs j (by simpa using h1) (by simpa using h2)

/-- Witness for C7 on concrete lists of two agents each: index 1 of the
interleaving positions red[1] at slot 2 and blue[1] at slot 3. -/
theorem C7_interleave_alternates_witness :
    (interleave [10, 11] [20, 21])[2 * 1]? = [10, 11][1]? ∧
    (interleave [10, 11] [20, 21])[2 * 1 + 1]? = [20, 21][1]? :=
  C7_interleave_alternates [10, 11] [20, 21] 1 (by decide) (by decide)

/-- Claim C9: with unequal agent-list lengths the interleaving keeps only
the first min(len red, len blue) agents of each side: it equals the
interleaving of the two truncated lists and has exactly twice the minimum
length, so surplus agents of the longer list are silently dropped. -/
theorem C9_interleave_drops_surplus {α : Type} (red blue : List α) :
    (interleave red blue).length = 2 * min red.length blue.length ∧
    interleave red blue =
      interleave (red.take (min red.length blue.length))
        (blue.take (min red.length blue.length)) := by
  induction red generalizing blue with
  | nil => simp [interleave]
  | cons r rs ih =>
    cases blue with
    | nil => simp [interleave]
    | cons b bs =>
      have hmin : min (rs.length + 1) (bs.length + 1) =
          min rs.length bs.length + 1 := by omega
      constructor
      · have := (ih bs).1
        simp only [interleave_cons, List.length_cons, this]
        omega
      · have := (ih bs).2
        simp only [List.length_cons, hmin, List.take_succ_cons,
          interleave_cons]
        rw [this]

/-- Claim C8: path resolution appends .py unless already present; if the
resulting path exists it is returned (resolved); otherwise the same-named
file in the fixed agents directory is returned — whether or not it exists
there, so a missing file defers its failure to the agent-load step. -/
theorem C8_resolve_team_path_policy (fs : String → Bool)
    (res : String → String) (dir arg : String) :
    (endsWithPy arg = true → withPyExtension arg = arg) ∧
    (endsWithPy arg = false → withPyExtension arg = arg ++ ".py") ∧
    (fs (withPyExtension arg) = true →
      resolve_team_path fs res dir arg = res (withPyExtension arg)) ∧
    (fs (withPyExtension arg) = false →
      resolve_team_path fs res dir arg =
        res (dir ++ "/src/contest/" ++ pathName (withPyExtension arg))) := by
  refine ⟨?_, ?_, ?_, ?_⟩
  · intro h
    simp [withPyExtension, h]
  · intro h
    simp [withPyExtension, h]
  · intro h
    simp [resolve_team_path, h]
  · intro h
    simp [resolve_team_path, h]

/-- Witness for C8 at concrete inputs: an argument with the extension is
kept, one without gets .py appended; an existing path is returned as-is,
and a missing one falls back to the agents directory. -/
theorem C8_resolve_team_path_policy_witness :
    withPyExtension "x.py" = "x.py" ∧
    withPyExtension "team" = "team.py" ∧
    resolve_team_path (fun _ => true) id "D" "x.py" = "x.py" ∧
    resolve_team_path (fun _ => false) id "D" "team" = "D/src/contest/team.py" := by
  refine ⟨?_, ?_, ?_, ?_⟩
  · exact (C8_resolve_team_path_policy (fun _ => true) id "D" "x.py").1
      (by decide)
  · exact ((C8_resolve_team_path_policy (fun _ => true) id "D" "team").2.1
      (by decide)).trans (by decide)
  · exact ((C8_resolve_team_path_policy (fun _ => true) id "D" "x.py").2.2.1
      rfl).trans (by decide)
  · exact ((C8_resolve_team_path_policy (fun _ => false) id "D" "team").2.2.2
      rfl).trans (by decide)

/-- Claim C10: for a non-positive requested game count the loop body never
runs: no games are played, no progress lines are printed, and the summary
still reports 0 total moves, 0 total score, 0 average moves and 0 average
score (rendered +0.0) without any division error. -/
theorem C10_nonpositive_num_games (n : ℤ) (runs : ℕ → GameOutcome)
    (h : n ≤ 0) :
    sessionResults n runs = [] ∧ progressLines n = 0 ∧
    summaryOf n (sessionResults n runs) = (0, 0, 0, 0) := by
  have h0 : n.toNat = 0 := Int.toNat_of_nonpos h
  have hnp : ¬ (0 < n) := not_lt.mpr h
  refine ⟨?_, ?_, ?_⟩
  · simp [sessionResults, h0]
  · simp [progressLines, h0]
  · simp [summaryOf, sessionResults, sessionTotals, h0, avg_moves,
      avg_score, hnp]

/-- Witness for C10 at the concrete count -3: no games, no progress lines,
all-zero summary. -/
theorem C10_nonpositive_num_games_witness :
    sessionResults (-3) (fun _ => (⟨[], 5, 7⟩ : GameOutcome)) = [] ∧
    progressLines (-3) = 0 ∧
    summaryOf (-3) (sessionResults (-3) (fun _ => (⟨[], 5, 7⟩ : GameOutcome))) =
      (0, 0, 0, 0) :=
  C10_nonpositive_num_games (-3) (fun _ => (⟨[], 5, 7⟩ : GameOutcome))
    (by decide)
